import Mathlib

/-!
Shallow embedding of the Mini-shop order/payment reconciliation core
(server.js, db_init.js). Request handlers become pure functions over an
explicit database state; the external payment provider (Mollie / Stripe)
becomes a parameter carrying the outcome of its calls. Money is modelled
in rational major units, converted to integer minor units by rounding,
exactly as the source's toCents helper does; JS falsy-value coercions
(Number(x) || 0, Number(x) || 1, s || default) are embedded explicitly.
-/

namespace MiniShop

/-- A raw cart line as submitted by the client: a product id and the raw
quantity value. `none` models a non-numeric quantity (JS NaN after
Number(x)); `some n` a numeric quantity n. -/
structure CartItem where
  id : Nat
  quantity : Option Int
deriving Repr, DecidableEq

/-- A catalog row of the products table: id, title, price in major units
(REAL column, modelled as a rational), inventory count. -/
structure Product where
  id : Nat
  title : String
  price : Rat
  inventory : Int
deriving Repr, DecidableEq

/-- An order row of the orders table. The items_json column is kept as the
parsed list of raw cart lines (JSON round-trip is the identity here). -/
structure Order where
  id : Nat
  email : Option String
  items_json : List CartItem
  total_cents : Int
  status : String
  tracking_number : Option String
  provider : Option String
  provider_payment_id : Option String
deriving Repr, DecidableEq

/-- The SQLite state the handlers read and write: the products and orders
tables, plus the AUTOINCREMENT counter for the next order id. -/
structure DB where
  products : List Product
  orders : List Order
  nextOrderId : Nat
deriving Repr, DecidableEq

/-- JS `Number(it.quantity) || 0` (webhook decrement loop): a non-numeric
quantity (NaN) coerces to 0; numeric values, 0 and negatives included,
pass through. -/
def jsQty0 : Option Int → Int
  | none => 0
  | some n => n

/-- JS `Number(it.quantity) || 1` (checkout normalization): NaN and 0 are
falsy and fall back to 1; any other numeric value, negatives included,
passes through. -/
def jsQty1 : Option Int → Int
  | none => 1
  | some n => if n = 0 then 1 else n

/-- JS `s || dflt` on an optional string field: undefined and the empty
string are falsy. -/
def jsStrOr (s : Option String) (dflt : String) : String :=
  match s with
  | none => dflt
  | some v => if v = "" then dflt else v

/-- JS `s || null` on an optional string field. -/
def jsStrOrNull (s : Option String) : Option String :=
  match s with
  | none => none
  | some v => if v = "" then none else some v

/-- toCents from server.js: `Math.round(Number(n) * 100)` — major units to
minor units, rounded half towards positive infinity, once per value. -/
def toCents (n : Rat) : Int := round (n * 100)

/-- `UPDATE products SET inventory = MAX(inventory - ?, 0) WHERE id = ?`:
every matching row is clamped at zero. -/
def decrementInventory (db : DB) (pid : Nat) (qty : Int) : DB :=
  { db with products := db.products.map fun p =>
      if p.id = pid then { p with inventory := max (p.inventory - qty) 0 } else p }

/-- `UPDATE orders SET status = ? WHERE id = ?`. -/
def setOrderStatus (db : DB) (oid : Nat) (st : String) : DB :=
  { db with orders := db.orders.map fun o =>
      if o.id = oid then { o with status := st } else o }

/-- `UPDATE orders SET provider_payment_id = ? WHERE id = ?`. -/
def setPaymentId (db : DB) (oid : Nat) (pid : String) : DB :=
  { db with orders := db.orders.map fun o =>
      if o.id = oid then { o with provider_payment_id := some pid } else o }

/-- `SELECT ... FROM orders WHERE id = ?` via db.get: the first matching
row, if any. -/
def findOrder (db : DB) (oid : Nat) : Option Order :=
  db.orders.find? fun o => o.id = oid

/-- The fields of a fetched Mollie payment object the webhook reads:
its status and the order id stored in its metadata at checkout time. -/
structure Payment where
  status : String
  metadata_order_id : Option Nat
deriving Repr, DecidableEq

/-- POST /webhook/mollie. `fetched` is the outcome of
`mollie.payments.get(req.body.id)` (`none` = the call threw; the handler
catches it). On a paid payment the handler decrements inventory for every
snapshot line of the referenced order (when that order exists) and then
sets the order status to paid — with no guard on the current status; on
canceled/expired/failed it overwrites the status; anything else is
ignored. The HTTP status sent back is the second component. The Stripe
webhook (POST /webhook, checkout.session.completed) applies the same
transition logic. -/
def webhookMollie (db : DB) (fetched : Option Payment) : DB × Nat :=
  match fetched with
  | none => (db, 200)
  | some payment =>
    match payment.metadata_order_id with
    | none => (db, 200)
    | some orderId =>
      if payment.status = "paid" then
        let db1 :=
          match findOrder db orderId with
          | some row => row.items_json.foldl
              (fun d it => decrementInventory d it.id (jsQty0 it.quantity)) db
          | none => db
        (setOrderStatus db1 orderId "paid", 200)
      else if payment.status = "canceled" ∨ payment.status = "expired" ∨
          payment.status = "failed" then
        (setOrderStatus db orderId payment.status, 200)
      else
        (db, 200)

/-- Response of GET /api/verify-mollie: either the provider status echoed
back with HTTP 200, or an error status code with a message. -/
inductive VerifyResp where
  | ok (status : String)
  | err (code : Nat) (msg : String)
deriving Repr, DecidableEq

/-- GET /api/verify-mollie?order=id. `fetch` models
`mollie.payments.get` keyed by the stored provider payment id (`none` =
the call threw). The handler only handles the paid case: when the
provider reports paid and the stored status is not already paid it sets
the status to paid; it never touches inventory and never applies
canceled/expired/failed. -/
def verifyMollie (db : DB) (orderQ : Option Nat) (fetch : String → Option String) :
    DB × VerifyResp :=
  match orderQ with
  | none => (db, .err 400 "Missing order")
  | some orderId =>
    match findOrder db orderId with
    | none => (db, .err 404 "Order not found")
    | some row =>
      match row.provider_payment_id with
      | none => (db, .err 500 "provider error")
      | some pid =>
        match fetch pid with
        | none => (db, .err 500 "provider error")
        | some st =>
          if st = "paid" ∧ row.status ≠ "paid" then
            (setOrderStatus db orderId "paid", .ok st)
          else
            (db, .ok st)

/-- `SELECT id, title, price FROM products WHERE id IN (...)` on the ids
of a cart: the catalog rows whose id occurs among the requested ids. -/
def rowsFor (db : DB) (ids : List Nat) : List Product :=
  db.products.filter fun p => ids.contains p.id

/-- `rows.find(r => String(r.id) === String(it.id))`: the catalog row a
cart line resolves to, if any. -/
def resolveRow (rows : List Product) (it : CartItem) : Option Product :=
  rows.find? fun r => r.id = it.id

/-- A normalized checkout line: snapshot title, unit price in minor units,
and the coerced quantity. -/
structure NormItem where
  name : String
  unit_amount_cents : Int
  quantity : Int
deriving Repr, DecidableEq

/-- The `items.map` body in both checkout handlers: resolve each cart line
against the fetched rows, throwing `Product not found` at the first line
whose id did not resolve, otherwise snapshotting title, rounded minor-unit
price and `Number(quantity) || 1`. -/
def normalizeItems (rows : List Product) : List CartItem → Except String (List NormItem)
  | [] => .ok []
  | it :: rest =>
    match resolveRow rows it with
    | none => .error ("Product not found: " ++ toString it.id)
    | some prod =>
      match normalizeItems rows rest with
      | .error e => .error e
      | .ok tl => .ok ({ name := prod.title, unit_amount_cents := toCents prod.price,
                         quantity := jsQty1 it.quantity } :: tl)

/-- The outcome of `mollie.payments.create`: the external payment id and
the hosted-checkout redirect URL. -/
structure PayCreated where
  payId : String
  url : String
deriving Repr, DecidableEq

/-- Response of a checkout handler: a redirect URL with 200, or an error
status code with a message. -/
inductive CheckoutResp where
  | ok (url : String)
  | err (code : Nat) (msg : String)
deriving Repr, DecidableEq

/-- POST /api/checkout (Mollie variant). `pay` is the outcome of
`mollie.payments.create` (`none` = it threw). An empty cart is rejected
with 400; an unresolvable product id makes the map throw, caught as a 500
before any order row is inserted; otherwise one pending order is inserted
with the raw cart as its snapshot and the summed minor-unit total, the
provider is called, and on success the returned payment id is persisted
onto the new order. -/
def checkout (db : DB) (items : List CartItem) (customer_email : Option String)
    (pay : Option PayCreated) : DB × CheckoutResp :=
  if items.isEmpty then (db, .err 400 "No items")
  else
    let rows := rowsFor db (items.map CartItem.id)
    match normalizeItems rows items with
    | .error e => (db, .err 500 e)
    | .ok normalized =>
      let total_cents := (normalized.map fun i => i.unit_amount_cents * i.quantity).sum
      let order : Order :=
        { id := db.nextOrderId, email := customer_email, items_json := items,
          total_cents := total_cents, status := "pending", tracking_number := none,
          provider := some "mollie", provider_payment_id := none }
      let db1 : DB :=
        { db with orders := db.orders ++ [order], nextOrderId := db.nextOrderId + 1 }
      match pay with
      | none => (db1, .err 500 "provider error")
      | some p => (setPaymentId db1 order.id p.payId, .ok p.url)

/-- The per-provider stub message of the multi-provider checkout switch. -/
def stubMessage (provider : String) : String :=
  if provider = "adyen" then
    "Adyen integration stub. Configure API call and return redirect URL."
  else if provider = "payone" then
    "Payone integration stub. Configure API call and return redirect URL."
  else if provider = "paysafe" then
    "Paysafe integration stub. Configure API call and return redirect URL."
  else if provider = "computop" then
    "Computop integration stub. Configure API call and return redirect URL."
  else
    "Paymenttree integration stub. Configure API call and return redirect URL."

/-- The provider names the multi-provider switch recognizes as stubs. -/
def stubProviders : List String :=
  ["adyen", "payone", "paysafe", "computop", "paymenttree"]

/-- POST /api/checkout (multi-provider Stripe variant). `stripeSession` is
the outcome of `stripe.checkout.sessions.create` (`none` = it threw); the
third component of the result records whether an outbound provider call
was attempted. After inserting the pending order the handler switches on
the requested provider: stripe performs the call, the five stub providers
return 501 without calling anything, and any other name returns 400
Unsupported provider without calling anything. -/
def checkoutMulti (db : DB) (items : List CartItem) (customer_email : Option String)
    (provider : String) (stripeSession : Option String) : DB × CheckoutResp × Bool :=
  if items.isEmpty then (db, .err 400 "No items", false)
  else
    let rows := rowsFor db (items.map CartItem.id)
    match normalizeItems rows items with
    | .error e => (db, .err 500 e, false)
    | .ok line_items =>
      let total_cents := (line_items.map fun i => i.unit_amount_cents * i.quantity).sum
      let order : Order :=
        { id := db.nextOrderId, email := customer_email, items_json := items,
          total_cents := total_cents, status := "pending", tracking_number := none,
          provider := none, provider_payment_id := none }
      let db1 : DB :=
        { db with orders := db.orders ++ [order], nextOrderId := db.nextOrderId + 1 }
      if provider = "stripe" then
        match stripeSession with
        | none => (db1, .err 500 "stripe error", true)
        | some url => (db1, .ok url, true)
      else if stubProviders.contains provider then
        (db1, .err 501 (stubMessage provider), false)
      else
        (db1, .err 400 "Unsupported provider", false)

/-- PUT /api/orders/:id (identical in both variants):
`UPDATE orders SET status=?, tracking_number=? WHERE id=?` with parameters
`status || 'processing'` and `tracking_number || null` — both columns are
overwritten unconditionally on the matching row. -/
def updateOrderAdmin (db : DB) (oid : Nat) (status tracking_number : Option String) : DB :=
  { db with orders := db.orders.map fun o =>
      if o.id = oid then
        { o with status := jsStrOr status "processing",
                 tracking_number := jsStrOrNull tracking_number }
      else o }

/-- The price branch of PUT /api/products/:id:
`UPDATE products SET price=? WHERE id=?` — a later admin change to a
catalog price. -/
def updateProductPrice (db : DB) (pid : Nat) (newPrice : Rat) : DB :=
  { db with products := db.products.map fun p =>
      if p.id = pid then { p with price := newPrice } else p }

/-- The price of the catalog row a cart line resolves to (0 when the line
does not resolve; only used under the hypothesis that it does). -/
def resolvedPrice (rows : List Product) (it : CartItem) : Rat :=
  match resolveRow rows it with
  | some p => p.price
  | none => 0

/-- The normalized line a resolvable cart line turns into (a placeholder
for unresolvable lines; only used under the hypothesis that the line
resolves). -/
def normOf (rows : List Product) (it : CartItem) : NormItem :=
  match resolveRow rows it with
  | some prod => { name := prod.title, unit_amount_cents := toCents prod.price,
                   quantity := jsQty1 it.quantity }
  | none => { name := "", unit_amount_cents := 0, quantity := 0 }

/-- Every order field other than status and tracking number: the part of
an order row the reconciliation and admin-update handlers must leave
untouched. -/
def orderCore (o : Order) :
    Nat × Option String × List CartItem × Int × Option String × Option String :=
  (o.id, o.email, o.items_json, o.total_cents, o.provider, o.provider_payment_id)

/-- One product with ten in stock and one pending order for one unit of
it, already joined to an external payment. -/
def exDbWebhook : DB :=
  { products := [{ id := 1, title := "widget", price := 10, inventory := 10 }],
    orders := [{ id := 1, email := none, items_json := [{ id := 1, quantity := some 1 }],
                 total_cents := 1000, status := "pending", tracking_number := none,
                 provider := some "mollie", provider_payment_id := some "tr_1" }],
    nextOrderId := 2 }

/-- A fetched Mollie payment reporting paid for order 1. -/
def exPaid : Payment := { status := "paid", metadata_order_id := some 1 }

/-- One product with five in stock and an order for two units of it that
is already in the paid state. -/
def exDbPaidOrder : DB :=
  { products := [{ id := 1, title := "widget", price := 10, inventory := 5 }],
    orders := [{ id := 1, email := none, items_json := [{ id := 1, quantity := some 2 }],
                 total_cents := 2000, status := "paid", tracking_number := none,
                 provider := some "mollie", provider_payment_id := some "tr_7" }],
    nextOrderId := 2 }

/-- A pending order joined to an external payment, for exercising the
pull-path verification handler. -/
def exDbVerify : DB :=
  { products := [{ id := 1, title := "widget", price := 10, inventory := 5 }],
    orders := [{ id := 1, email := none, items_json := [{ id := 1, quantity := some 1 }],
                 total_cents := 1000, status := "pending", tracking_number := none,
                 provider := some "mollie", provider_payment_id := some "tr_2" }],
    nextOrderId := 2 }

/-- A catalog with a single product priced 9.99, for exercising checkout. -/
def exDbCheckout : DB :=
  { products := [{ id := 1, title := "gadget", price := 999/100, inventory := 3 }],
    orders := [], nextOrderId := 1 }

/-- A catalog with a single product holding one unit of inventory. -/
def exDbInv : DB :=
  { products := [{ id := 1, title := "gadget", price := 2, inventory := 1 }],
    orders := [], nextOrderId := 1 }

/-- An order carrying a previously set tracking number, for exercising the
admin update handler. -/
def exDbAdmin : DB :=
  { products := [],
    orders := [{ id := 1, email := none, items_json := [{ id := 1, quantity := some 1 }],
                 total_cents := 1000, status := "shipped", tracking_number := some "T1",
                 provider := some "mollie", provider_payment_id := some "tr_3" }],
    nextOrderId := 2 }

theorem decrementInventory_orders (db : DB) (pid : Nat) (qty : Int) :
    (decrementInventory db pid qty).orders = db.orders := rfl

theorem foldl_decrementInventory_orders (l : List CartItem) (db : DB) :
    (l.foldl (fun d it => decrementInventory d it.id (jsQty0 it.quantity)) db).orders
      = db.orders := by
  induction l generalizing db with
  | nil => rfl
  | cons a t ih =>
    simpa [List.foldl_cons] using ih (decrementInventory db a.id (jsQty0 a.quantity))

theorem setOrderStatus_orderCore (db : DB) (oid : Nat) (st : String) :
    (setOrderStatus db oid st).orders.map orderCore = db.orders.map orderCore := by
  simp only [setOrderStatus, List.map_map]
  exact List.map_congr_left fun o _ => by
    by_cases h : o.id = oid <;> simp [h, orderCore, Function.comp]

theorem setOrderStatus_products (db : DB) (oid : Nat) (st : String) :
    (setOrderStatus db oid st).products = db.products := rfl

/-- C1: the code has no status guard on the paid transition — delivering
the same paid outcome twice decrements the snapshot product's inventory
twice (10 to 9 to 8), not exactly once as the claim requires. -/
theorem webhook_paid_redelivered_decrements_twice :
    ((webhookMollie exDbWebhook (some exPaid)).1.products.map Product.inventory = [9]) ∧
    ((webhookMollie (webhookMollie exDbWebhook (some exPaid)).1 (some exPaid)).1.products.map
        Product.inventory = [8]) := by decide

/-- C7: the webhook acknowledges with 200 when the payment is fetched and
when fetching throws, and an event whose order id is unknown changes no
state; but redelivering paid to an already paid order is not a no-op: the
snapshot inventory is decremented again (5 to 3). -/
theorem webhook_acks_but_paid_redelivery_not_noop :
    ((webhookMollie exDbPaidOrder (some exPaid)).2 = 200) ∧
    ((webhookMollie exDbPaidOrder (some exPaid)).1.products.map Product.inventory = [3]) ∧
    ((webhookMollie exDbPaidOrder
        (some { status := "paid", metadata_order_id := some 99 })).1 = exDbPaidOrder) ∧
    ((webhookMollie exDbPaidOrder
        (some { status := "paid", metadata_order_id := some 99 })).2 = 200) ∧
    (webhookMollie exDbPaidOrder none = (exDbPaidOrder, 200)) := by decide

/-- C5: the SQL decrement clamps every matching row at zero — the new
inventory of the targeted product is max(inventory - qty, 0) — and when
every inventory was nonnegative before, it stays nonnegative after. -/
theorem decrement_clamps_at_zero (db : DB) (pid : Nat) (qty : Int)
    (hinv : ∀ p ∈ db.products, 0 ≤ p.inventory) :
    ((decrementInventory db pid qty).products.map Product.inventory =
      db.products.map fun p =>
        if p.id = pid then max (p.inventory - qty) 0 else p.inventory) ∧
    (∀ p ∈ (decrementInventory db pid qty).products, 0 ≤ p.inventory) := by
  constructor
  · simp only [decrementInventory, List.map_map]
    exact List.map_congr_left fun p _ => by
      by_cases h : p.id = pid <;> simp [h, Function.comp]
  · intro p hp
    simp only [decrementInventory, List.mem_map] at hp
    obtain ⟨q, hq, hEq⟩ := hp
    subst hEq
    by_cases h : q.id = pid
    · simp only [if_pos h]
      exact le_max_right _ _
    · simp only [if_neg h]
      exact hinv q hq

theorem decrement_clamps_at_zero_witness :
    (decrementInventory exDbInv 1 5).products.map Product.inventory = [0] := by
  have h := (decrement_clamps_at_zero exDbInv 1 5 (by decide)).1
  rw [h]; decide

/-- C10: the admin order update overwrites both columns unconditionally on
the matching row: the stored status becomes status-or-processing and the
stored tracking number becomes tracking-or-null, and in particular an
omitted status yields processing and an omitted tracking number erases any
previously stored one. -/
theorem admin_update_overwrites_both_fields (db : DB) (oid : Nat)
    (st tr : Option String) (o : Order) (hmem : o ∈ db.orders) (hid : o.id = oid) :
    ({ o with status := jsStrOr st "processing",
              tracking_number := jsStrOrNull tr } ∈ (updateOrderAdmin db oid st tr).orders) ∧
    (st = none → jsStrOr st "processing" = "processing") ∧
    (tr = none → jsStrOrNull tr = none) := by
  refine ⟨?_, ?_, ?_⟩
  · simp only [updateOrderAdmin, List.mem_map]
    exact ⟨o, hmem, by simp [hid]⟩
  · rintro rfl; rfl
  · rintro rfl; rfl

theorem admin_update_overwrites_witness :
    ({ id := 1, email := none, items_json := [{ id := 1, quantity := some 1 }],
       total_cents := 1000, status := "processing", tracking_number := none,
       provider := some "mollie", provider_payment_id := some "tr_3" } : Order) ∈
      (updateOrderAdmin exDbAdmin 1 none none).orders := by
  have h := (admin_update_overwrites_both_fields exDbAdmin 1 none none
      { id := 1, email := none, items_json := [{ id := 1, quantity := some 1 }],
        total_cents := 1000, status := "shipped", tracking_number := some "T1",
        provider := some "mollie", provider_payment_id := some "tr_3" }
      (by decide) rfl).1
  simpa [jsStrOr, jsStrOrNull] using h

/-- C2 counterexample: the pull-path handler does not apply the
canceled/expired/failed branch of the transition algorithm — on a stored
pending order whose provider reports canceled, it returns the provider
status but leaves the database, the order status included, unchanged. -/
theorem verify_ignores_canceled :
    ((verifyMollie exDbVerify (some 1) fun _ => some "canceled").1 = exDbVerify) ∧
    ((verifyMollie exDbVerify (some 1) fun _ => some "canceled").2 = .ok "canceled") ∧
    ((findOrder (verifyMollie exDbVerify (some 1) fun _ => some "canceled").1 1).map
        Order.status = some "pending") := by decide

/-- C2 amended: the pull-path handler echoes the fetched provider status,
never touches the products table (so it never decrements inventory), sets
the order status to paid exactly when the provider reports paid and the
stored status is not already paid, and performs no transition for any
other provider status, canceled/expired/failed included. -/
theorem verify_applies_only_paid_branch (db : DB) (oid : Nat)
    (fetch : String → Option String) (row : Order) (hrow : findOrder db oid = some row)
    (pid : String) (hpid : row.provider_payment_id = some pid)
    (st : String) (hst : fetch pid = some st) :
    ((verifyMollie db (some oid) fetch).2 = .ok st) ∧
    ((verifyMollie db (some oid) fetch).1.products = db.products) ∧
    ((st = "paid" ∧ row.status ≠ "paid") →
        (verifyMollie db (some oid) fetch).1 = setOrderStatus db oid "paid") ∧
    (¬(st = "paid" ∧ row.status ≠ "paid") →
        (verifyMollie db (some oid) fetch).1 = db) := by
  simp only [verifyMollie, hrow, hpid, hst]
  by_cases h : st = "paid" ∧ row.status ≠ "paid"
  · simp [h, setOrderStatus_products]
  · simp [h]

theorem verify_applies_only_paid_branch_witness :
    ((verifyMollie exDbVerify (some 1) fun _ => some "paid").2 = .ok "paid") ∧
    ((verifyMollie exDbVerify (some 1) fun _ => some "paid").1 =
      setOrderStatus exDbVerify 1 "paid") := by
  have h := verify_applies_only_paid_branch exDbVerify 1 (fun _ => some "paid")
      { id := 1, email := none, items_json := [{ id := 1, quantity := some 1 }],
        total_cents := 1000, status := "pending", tracking_number := none,
        provider := some "mollie", provider_payment_id := some "tr_2" }
      (by decide) "tr_2" (by decide) "paid" rfl
  exact ⟨h.1, h.2.2.1 (by decide)⟩

theorem isSome_resolveRow_exists (rows : List Product) (it : CartItem)
    (h : (resolveRow rows it).isSome) : ∃ p, resolveRow rows it = some p := by
  cases hcase : resolveRow rows it with
  | none => rw [hcase] at h; simp at h
  | some p => exact ⟨p, rfl⟩

theorem normalizeItems_eq_ok (rows : List Product) (items : List CartItem)
    (hres : ∀ it ∈ items, (resolveRow rows it).isSome) :
    normalizeItems rows items = .ok (items.map (normOf rows)) := by
  induction items with
  | nil => rfl
  | cons it rest ih =>
    obtain ⟨prod, hp⟩ := isSome_resolveRow_exists rows it (hres it (by simp))
    have h2 := ih fun x hx => hres x (by simp [hx])
    simp [normalizeItems, hp, h2, normOf]

theorem normalizeItems_err (rows : List Product) (items : List CartItem)
    (hmiss : ∃ it ∈ items, resolveRow rows it = none) :
    ∃ e, normalizeItems rows items = .error e := by
  induction items with
  | nil => simp at hmiss
  | cons it rest ih =>
    cases hcase : resolveRow rows it with
    | none =>
      refine ⟨"Product not found: " ++ toString it.id, ?_⟩
      simp [normalizeItems, hcase]
    | some prod =>
      obtain ⟨x, hx, hnone⟩ := hmiss
      rcases List.mem_cons.mp hx with h | h
      · subst h; rw [hcase] at hnone; cases hnone
      · obtain ⟨e, he⟩ := ih ⟨x, h, hnone⟩
        exact ⟨e, by simp [normalizeItems, hcase, he]⟩

theorem checkout_ok_orders (db : DB) (items : List CartItem) (email : Option String)
    (pay : Option PayCreated) (hne : items ≠ [])
    (hres : ∀ it ∈ items, (resolveRow (rowsFor db (items.map CartItem.id)) it).isSome) :
    ((checkout db items email pay).1.orders.length = db.orders.length + 1) ∧
    (((checkout db items email pay).1.orders.getLast?).map Order.items_json = some items) ∧
    (((checkout db items email pay).1.orders.getLast?).map Order.status = some "pending") ∧
    (((checkout db items email pay).1.orders.getLast?).map Order.total_cents =
      some ((items.map fun it =>
        toCents (resolvedPrice (rowsFor db (items.map CartItem.id)) it) *
          jsQty1 it.quantity).sum)) := by
  have hemp : items.isEmpty = false := by simp [List.isEmpty_iff, hne]
  have hok := normalizeItems_eq_ok (rowsFor db (items.map CartItem.id)) items hres
  have hsum : (items.map ((fun i => i.unit_amount_cents * i.quantity) ∘
      normOf (rowsFor db (items.map CartItem.id)))).sum =
      (items.map fun it =>
        toCents (resolvedPrice (rowsFor db (items.map CartItem.id)) it) *
          jsQty1 it.quantity).sum := by
    refine congrArg List.sum (List.map_congr_left fun it hit => ?_)
    obtain ⟨p, hp⟩ := isSome_resolveRow_exists _ it (hres it hit)
    simp [normOf, resolvedPrice, hp, Function.comp]
  refine ⟨?_, ?_, ?_, ?_⟩ <;>
    cases pay <;>
      simp [checkout, hemp, hok, setPaymentId, List.getLast?_map, List.getLast?_concat, hsum]

/-- C3: for a nonempty cart whose lines all resolve and carry positive
numeric quantities, checkout inserts exactly one order and its stored
total is the integer sum, over cart lines, of the line price rounded to
minor units once (round of major price times 100) multiplied by the
submitted quantity. -/
theorem checkout_total_rounds_once_per_line (db : DB) (items : List CartItem)
    (email : Option String) (pay : Option PayCreated)
    (hne : items ≠ [])
    (hres : ∀ it ∈ items, (resolveRow (rowsFor db (items.map CartItem.id)) it).isSome)
    (hq : ∀ it ∈ items, ∃ n : Int, it.quantity = some n ∧ 0 < n) :
    ((checkout db items email pay).1.orders.length = db.orders.length + 1) ∧
    (((checkout db items email pay).1.orders.getLast?).map Order.total_cents =
      some ((items.map fun it =>
        round (resolvedPrice (rowsFor db (items.map CartItem.id)) it * 100) *
          it.quantity.getD 1).sum)) := by
  obtain ⟨hlen, _, _, htot⟩ := checkout_ok_orders db items email pay hne hres
  refine ⟨hlen, ?_⟩
  rw [htot]
  congr 1
  refine congrArg List.sum (List.map_congr_left fun it hit => ?_)
  obtain ⟨n, hn, hpos⟩ := hq it hit
  rw [hn]
  simp [toCents, jsQty1, hpos.ne']

theorem checkout_total_witness :
    (((checkout exDbCheckout [{ id := 1, quantity := some 2 }] none none).1.orders.getLast?).map
        Order.total_cents = some 1998) := by
  have h := (checkout_total_rounds_once_per_line exDbCheckout
      [{ id := 1, quantity := some 2 }] none none (by decide) (by decide)
      (fun it hit => by
        rw [List.mem_singleton] at hit
        subst hit
        exact ⟨2, rfl, by norm_num⟩)).2
  rw [h]
  norm_num [resolvedPrice, resolveRow, rowsFor, exDbCheckout]

/-- C4: a cart containing a product id that no catalog row carries makes
checkout fail with a 500 Product-not-found error and leaves the database,
the orders table included, exactly as it was: no partial order is
persisted. -/
theorem checkout_unresolvable_creates_no_order (db : DB) (items : List CartItem)
    (email : Option String) (pay : Option PayCreated)
    (hmiss : ∃ it ∈ items, ∀ p ∈ db.products, p.id ≠ it.id) :
    ((checkout db items email pay).1 = db) ∧
    (∃ msg, (checkout db items email pay).2 = .err 500 msg) := by
  obtain ⟨it, hit, hids⟩ := hmiss
  have hne : items ≠ [] := by intro h; subst h; simp at hit
  have hemp : items.isEmpty = false := by simp [List.isEmpty_iff, hne]
  have hnone : resolveRow (rowsFor db (items.map CartItem.id)) it = none := by
    unfold resolveRow
    refine List.find?_eq_none.mpr fun r hr => ?_
    have hrp := (List.mem_filter.mp hr).1
    simpa using hids r hrp
  obtain ⟨e, he⟩ := normalizeItems_err _ items ⟨it, hit, hnone⟩
  exact ⟨by simp [checkout, hemp, he], e, by simp [checkout, hemp, he]⟩

theorem checkout_unresolvable_witness :
    (checkout exDbCheckout [{ id := 2, quantity := some 1 }] none none).1 = exDbCheckout :=
  (checkout_unresolvable_creates_no_order exDbCheckout [{ id := 2, quantity := some 1 }]
      none none ⟨{ id := 2, quantity := some 1 }, by decide, by decide⟩).1

/-- C6 counterexample: a submitted quantity of -1 is not treated as 1 by
the checkout math: with one line of the 9.99 product at quantity -1 the
stored total is -999, not the 999 the claim would require. -/
theorem checkout_negative_quantity_not_treated_as_one :
    ((checkout exDbCheckout [{ id := 1, quantity := some (-1) }] none none).1.orders.map
        Order.total_cents = [-999]) ∧
    ((checkout exDbCheckout [{ id := 1, quantity := some (-1) }] none none).1.orders.map
        Order.total_cents ≠ [999]) := by
  have h : toCents (999/100) = 999 := by norm_num [toCents]
  constructor
  · norm_num [checkout, rowsFor, normalizeItems, resolveRow, jsQty1, h, exDbCheckout]
  · norm_num [checkout, rowsFor, normalizeItems, resolveRow, jsQty1, h, exDbCheckout]

/-- C6 amended: checkout stores the raw submitted cart as the order
snapshot, and prices each line with the coerced quantity jsQty1: a
non-numeric quantity counts as 1, a zero quantity counts as 1, and any
nonzero numeric quantity — negatives included — is used as submitted. -/
theorem checkout_quantity_coercion (db : DB) (items : List CartItem)
    (email : Option String) (pay : Option PayCreated)
    (hne : items ≠ [])
    (hres : ∀ it ∈ items, (resolveRow (rowsFor db (items.map CartItem.id)) it).isSome) :
    (((checkout db items email pay).1.orders.getLast?).map Order.items_json = some items) ∧
    (((checkout db items email pay).1.orders.getLast?).map Order.total_cents =
      some ((items.map fun it =>
        toCents (resolvedPrice (rowsFor db (items.map CartItem.id)) it) *
          jsQty1 it.quantity).sum)) ∧
    (jsQty1 none = 1) ∧ (jsQty1 (some 0) = 1) ∧
    (∀ n : Int, n ≠ 0 → jsQty1 (some n) = n) := by
  obtain ⟨_, hitems, _, htot⟩ := checkout_ok_orders db items email pay hne hres
  exact ⟨hitems, htot, rfl, rfl, fun n hn => by simp [jsQty1, hn]⟩

theorem checkout_quantity_coercion_witness :
    (((checkout exDbCheckout [{ id := 1, quantity := none }] none none).1.orders.getLast?).map
        Order.items_json = some [{ id := 1, quantity := none }]) :=
  (checkout_quantity_coercion exDbCheckout [{ id := 1, quantity := none }] none none
      (by decide) (by decide)).1

/-- C9: a checkout request naming any provider other than stripe never
performs an outbound provider call, and — when the cart is nonempty and
resolvable, so that the request reaches provider routing — it fails with
the distinct unsupported-provider error: 501 with the provider stub
message for the five stub providers, 400 Unsupported provider otherwise. -/
theorem unsupported_provider_fails_fast (db : DB) (items : List CartItem)
    (email : Option String) (provider : String) (sess : Option String)
    (hprov : provider ≠ "stripe") :
    ((checkoutMulti db items email provider sess).2.2 = false) ∧
    (items ≠ [] →
      (∀ it ∈ items, (resolveRow (rowsFor db (items.map CartItem.id)) it).isSome) →
      (checkoutMulti db items email provider sess).2.1 =
        (if stubProviders.contains provider then CheckoutResp.err 501 (stubMessage provider)
         else CheckoutResp.err 400 "Unsupported provider")) := by
  constructor
  · by_cases hemp : items.isEmpty
    · simp [checkoutMulti, hemp]
    · cases hnorm : normalizeItems (rowsFor db (items.map CartItem.id)) items with
      | error e => simp [checkoutMulti, hemp, hnorm]
      | ok l =>
        by_cases hstub : provider ∈ stubProviders
        · simp [checkoutMulti, hemp, hnorm, hprov, hstub]
        · simp [checkoutMulti, hemp, hnorm, hprov, hstub]
  · intro hne hres
    have hemp : items.isEmpty = false := by simp [List.isEmpty_iff, hne]
    have hok := normalizeItems_eq_ok _ items hres
    by_cases hstub : provider ∈ stubProviders
    · simp [checkoutMulti, hemp, hok, hprov, hstub]
    · simp [checkoutMulti, hemp, hok, hprov, hstub]

theorem unsupported_provider_witness :
    ((checkoutMulti exDbCheckout [{ id := 1, quantity := some 1 }] none "adyen" none).2.2
        = false) ∧
    ((checkoutMulti exDbCheckout [{ id := 1, quantity := some 1 }] none "adyen" none).2.1 =
      CheckoutResp.err 501 (stubMessage "adyen")) := by
  have h := unsupported_provider_fails_fast exDbCheckout [{ id := 1, quantity := some 1 }]
      none "adyen" none (by decide)
  refine ⟨h.1, ?_⟩
  have h2 := h.2 (by decide) (by decide)
  rw [h2]
  decide

/-- C8: every post-checkout operation — webhook reconciliation, pull-path
verification, the admin status/tracking update, and a later admin change
to a catalog price — leaves every stored order field other than status
and tracking number unchanged: id, email, items snapshot, total, provider
name and provider payment reference are immutable under these operations. -/
theorem order_snapshot_immutable (db : DB) :
    (∀ fetched : Option Payment,
       (webhookMollie db fetched).1.orders.map orderCore = db.orders.map orderCore) ∧
    (∀ (orderQ : Option Nat) (fetch : String → Option String),
       (verifyMollie db orderQ fetch).1.orders.map orderCore = db.orders.map orderCore) ∧
    (∀ (oid : Nat) (st tr : Option String),
       (updateOrderAdmin db oid st tr).orders.map orderCore = db.orders.map orderCore) ∧
    (∀ (pid : Nat) (newPrice : Rat),
       (updateProductPrice db pid newPrice).orders.map orderCore = db.orders.map orderCore) := by
  refine ⟨?_, ?_, ?_, ?_⟩
  · intro fetched
    cases fetched with
    | none => rfl
    | some payment =>
      cases hm : payment.metadata_order_id with
      | none => simp [webhookMollie, hm]
      | some oid =>
        by_cases hp : payment.status = "paid"
        · cases hf : findOrder db oid with
          | none => simp [webhookMollie, hm, hp, hf, setOrderStatus_orderCore]
          | some row =>
            simp only [webhookMollie, hm, hp, hf, if_pos]
            rw [setOrderStatus_orderCore, foldl_decrementInventory_orders]
        · by_cases hc : payment.status = "canceled" ∨ payment.status = "expired" ∨
              payment.status = "failed"
          · simp [webhookMollie, hm, hp, hc, setOrderStatus_orderCore]
          · simp [webhookMollie, hm, hp, hc]
  · intro orderQ fetch
    cases orderQ with
    | none => rfl
    | some oid =>
      cases hf : findOrder db oid with
      | none => simp [verifyMollie, hf]
      | some row =>
        cases hpid : row.provider_payment_id with
        | none => simp [verifyMollie, hf, hpid]
        | some pid =>
          cases hst : fetch pid with
          | none => simp [verifyMollie, hf, hpid, hst]
          | some st =>
            by_cases hcond : st = "paid" ∧ row.status ≠ "paid"
            · simp [verifyMollie, hf, hpid, hst, hcond, setOrderStatus_orderCore]
            · simp [verifyMollie, hf, hpid, hst, hcond]
  · intro oid st tr
    simp only [updateOrderAdmin, List.map_map]
    exact List.map_congr_left fun o _ => by
      by_cases h : o.id = oid <;> simp [h, orderCore, Function.comp]
  · intro pid newPrice
    rfl

end MiniShop

